import Mathlib

/-!
Verification development for the iota-identity-examples terminal dashboard.

The definitions below are a shallow embedding of `src/main.rs`, `src/did.rs`
and `src/issue.rs`: the menu state machine and render loop of `main`, the
background event producer, the startup orchestration (identity creation,
credential issuance, QR encoding) and the panel renderers.  External
collaborators (the identity library, the Tangle client, the QR encoder and
the terminal device) are modelled by explicit outcome parameters threaded
through the embedded functions.
-/

namespace IotaDash

/-- Key codes delivered by the terminal input device.  Only character keys
are inspected by the dashboard (`KeyCode::Char` in crossterm); every other
variant is collapsed into `other`. -/
inductive KeyCode where
  | char : Char → KeyCode
  | other : KeyCode
deriving DecidableEq

/-- `enum Event<I> { Input(I), Tick }` from main.rs. -/
inductive Event where
  | Input : KeyCode → Event
  | Tick : Event
deriving DecidableEq

/-- A crossterm event read by the producer thread: a key event or any other
terminal event (resize, mouse, ...), which the producer drops. -/
inductive CEvent where
  | key : KeyCode → CEvent
  | nonKey : CEvent
deriving DecidableEq

/-- `enum MenuItem { Home, Issue, Verify }` from main.rs. -/
inductive MenuItem where
  | Home : MenuItem
  | Issue : MenuItem
  | Verify : MenuItem
deriving DecidableEq

/-- `impl From<MenuItem> for usize` from main.rs. -/
def menuItemToUsize : MenuItem → Nat
  | MenuItem.Home => 0
  | MenuItem.Issue => 1
  | MenuItem.Verify => 2

/-- The mutable state owned by the render loop in `main`: the active menu
item, the cached DID and credential strings rendered by the panels, the
list-widget selection, and the terminal-mode flags manipulated on the quit
path (`disable_raw_mode` / `show_cursor`). -/
structure DashboardState where
  activeMenuItem : MenuItem
  didId : String
  vc : String
  listSelection : Option Nat
  rawMode : Bool
  cursorShown : Bool
deriving DecidableEq

/-- State of the loop right after `enable_raw_mode` and the
`pet_list_state.select(Some(0))` initialisation in main.rs. -/
def initDashboard (didId vc : String) : DashboardState :=
  { activeMenuItem := MenuItem.Home
    didId := didId
    vc := vc
    listSelection := some 0
    rawMode := true
    cursorShown := false }

/-- Outcome of handling one received event in the loop body of `main`:
either the loop continues with an updated state, or the `q` branch ran
(`disable_raw_mode`, `show_cursor`, `break`). -/
inductive StepResult where
  | cont : DashboardState → StepResult
  | halt : DashboardState → StepResult
deriving DecidableEq

/-- The `match rx.recv()? { ... }` body of the render loop in main.rs:
`q` disables raw mode, shows the cursor and breaks; `h`/`i`/`v` set the
active menu item; any other key and `Tick` leave the state unchanged. -/
def dashStep (s : DashboardState) (e : Event) : StepResult :=
  match e with
  | Event.Tick => StepResult.cont s
  | Event.Input k =>
    match k with
    | KeyCode.other => StepResult.cont s
    | KeyCode.char c =>
      if c = 'q' then
        StepResult.halt { s with rawMode := false, cursorShown := true }
      else if c = 'h' then
        StepResult.cont { s with activeMenuItem := MenuItem.Home }
      else if c = 'i' then
        StepResult.cont { s with activeMenuItem := MenuItem.Issue }
      else if c = 'v' then
        StepResult.cont { s with activeMenuItem := MenuItem.Verify }
      else
        StepResult.cont s

/-- Feeding a finite queue of channel events through the render loop.
Returns the final state, whether the loop exited through the `q` branch,
and the events left unconsumed in the queue after the loop broke. -/
def dashboardRun (s : DashboardState) : List Event → DashboardState × Bool × List Event
  | [] => (s, false, [])
  | e :: rest =>
    match dashStep s e with
    | StepResult.halt sq => (sq, true, rest)
    | StepResult.cont s1 => dashboardRun s1 rest

/-- The trace of active menu items observed after each processed non-quit
event (the value the next draw call renders with). -/
def dashTrace (s : DashboardState) : List Event → List MenuItem
  | [] => []
  | e :: rest =>
    match dashStep s e with
    | StepResult.halt _ => []
    | StepResult.cont s1 => s1.activeMenuItem :: dashTrace s1 rest

/-- Whether an event is the quit key `q` (spec section 8, first property). -/
def isQuit : Event → Bool
  | Event.Input (KeyCode.char c) => if c = 'q' then true else false
  | _ => false

/-- The menu item named by a recognized navigation key, if any
(spec: `h`→Home, `i`→Issue, `v`→Verify, anything else ignored). -/
def navTarget : Event → Option MenuItem
  | Event.Input (KeyCode.char c) =>
    if c = 'h' then some MenuItem.Home
    else if c = 'i' then some MenuItem.Issue
    else if c = 'v' then some MenuItem.Verify
    else none
  | _ => none

/-- Modelled from the spec: the menu item after a sequence of events is the
one named by the last recognized navigation key seen before the first quit
key, unrecognized keys being ignored. -/
def specFinalMenu (m : MenuItem) : List Event → MenuItem
  | [] => m
  | e :: rest =>
    if isQuit e then m else specFinalMenu ((navTarget e).getD m) rest

/-- Modelled from the spec: the events after the first quit key are never
processed; this computes that unprocessed suffix. -/
def specRemaining : List Event → List Event
  | [] => []
  | e :: rest => if isQuit e then rest else specRemaining rest

theorem dashboardRun_characterization (evts : List Event) : ∀ s : DashboardState,
    (dashboardRun s evts).1.activeMenuItem = specFinalMenu s.activeMenuItem evts
    ∧ (dashboardRun s evts).2.1 = evts.any isQuit
    ∧ (dashboardRun s evts).2.2 = specRemaining evts := by
  induction evts with
  | nil => intro s; exact ⟨rfl, rfl, rfl⟩
  | cons e rest ih =>
    intro s
    cases e with
    | Tick =>
      simpa [dashboardRun, dashStep, specFinalMenu, specRemaining, isQuit, navTarget]
        using ih s
    | Input k =>
      cases k with
      | other =>
        simpa [dashboardRun, dashStep, specFinalMenu, specRemaining, isQuit, navTarget]
          using ih s
      | char c =>
        by_cases hq : c = 'q'
        · subst hq
          simp [dashboardRun, dashStep, specFinalMenu, specRemaining, isQuit, navTarget]
        · by_cases hh : c = 'h'
          · subst hh
            simpa [dashboardRun, dashStep, specFinalMenu, specRemaining, isQuit, navTarget]
              using ih { s with activeMenuItem := MenuItem.Home }
          · by_cases hi : c = 'i'
            · subst hi
              simpa [dashboardRun, dashStep, specFinalMenu, specRemaining, isQuit, navTarget]
                using ih { s with activeMenuItem := MenuItem.Issue }
            · by_cases hv : c = 'v'
              · subst hv
                simpa [dashboardRun, dashStep, specFinalMenu, specRemaining, isQuit, navTarget]
                  using ih { s with activeMenuItem := MenuItem.Verify }
              · simpa [dashboardRun, dashStep, specFinalMenu, specRemaining, isQuit,
                  navTarget, hq, hh, hi, hv] using ih s

/-- Claim C1: for every finite sequence of channel events, the menu state
after the run equals the menu item named by the last recognized navigation
key before the first quit key (Home when none occurred), unrecognized keys
leave the state unchanged, and once a `q` is processed the remaining events
of the sequence are left unprocessed. -/
theorem C1_menu_follows_last_nav_key (didId vc : String) (evts : List Event) :
    (dashboardRun (initDashboard didId vc) evts).1.activeMenuItem = specFinalMenu MenuItem.Home evts
    ∧ (dashboardRun (initDashboard didId vc) evts).2.1 = evts.any isQuit
    ∧ (dashboardRun (initDashboard didId vc) evts).2.2 = specRemaining evts := by
  simpa [initDashboard] using dashboardRun_characterization evts (initDashboard didId vc)

/-- Claim C8: processing a `Tick` event changes no part of the dashboard
state (menu item, cached strings, selection index, terminal flags); the
loop merely continues to the next redraw. -/
theorem C8_tick_is_noop (s : DashboardState) :
    dashStep s Event.Tick = StepResult.cont s
    ∧ (dashboardRun s [Event.Tick]).1 = s := ⟨rfl, rfl⟩

/-- How one run of the render loop of `main` terminates: the `q` branch
(raw mode disabled, cursor shown, `break`, then `Ok(())`), a failed
`terminal.draw(..)?` (the error is returned from `main`), a failed
`rx.recv()?` (the producer died and the channel closed), or the modelled
event script ran out while the loop was still going. -/
inductive LoopExit where
  | quit : DashboardState → LoopExit
  | drawErr : DashboardState → LoopExit
  | recvErr : DashboardState → LoopExit
  | ranOut : DashboardState → LoopExit
deriving DecidableEq

/-- The render loop of main.rs with its fallible terminal operations made
explicit.  Each script entry gives the outcome of that iteration's
`terminal.draw` call (`Bool`) and of `rx.recv()` (`none` = channel error).
A failed draw or receive propagates through `?` without touching the
terminal-mode flags; only the `q` branch of `dashStep` clears `rawMode`. -/
def mainLoop (s : DashboardState) : List (Bool × Option Event) → LoopExit
  | [] => LoopExit.ranOut s
  | (drawOk, recv) :: rest =>
    if drawOk then
      match recv with
      | none => LoopExit.recvErr s
      | some e =>
        match dashStep s e with
        | StepResult.halt sq => LoopExit.quit sq
        | StepResult.cont s1 => mainLoop s1 rest
    else LoopExit.drawErr s

/-- Claim C2 (code bug): with a draw failure or a receive failure the loop
exits while `rawMode` is still set — `main` propagates those errors with
`?` and never reaches a `disable_raw_mode` call; only the `q` branch
disables raw mode. -/
theorem C2_error_paths_keep_raw_mode :
    mainLoop (initDashboard "did" "vc") [(false, none)]
      = LoopExit.drawErr (initDashboard "did" "vc")
    ∧ mainLoop (initDashboard "did" "vc") [(true, none)]
      = LoopExit.recvErr (initDashboard "did" "vc")
    ∧ (initDashboard "did" "vc").rawMode = true
    ∧ mainLoop (initDashboard "did" "vc") [(true, some (Event.Input (KeyCode.char 'q')))]
      = LoopExit.quit { initDashboard "did" "vc" with rawMode := false, cursorShown := true } := by
  refine ⟨rfl, rfl, rfl, rfl⟩

/-- The concrete event script of the spec's scenario (section 8). -/
def scenarioEvents : List Event :=
  [Event.Input (KeyCode.char 'i'), Event.Tick,
   Event.Input (KeyCode.char 'v'), Event.Input (KeyCode.char 'q')]

/-- Claim C9: the scenario `[Input('i'), Tick, Input('v'), Input('q')]`
from the initial state yields the menu trace `[Issue, Issue, Verify]`, the
loop exits through the quit branch on the fourth event with nothing left
unprocessed, and the final state has raw mode disabled and the cursor
shown. -/
theorem C9_scenario_trace (didId vc : String) :
    dashTrace (initDashboard didId vc) scenarioEvents
      = [MenuItem.Issue, MenuItem.Issue, MenuItem.Verify]
    ∧ (dashboardRun (initDashboard didId vc) scenarioEvents).2.1 = true
    ∧ (dashboardRun (initDashboard didId vc) scenarioEvents).2.2 = []
    ∧ (dashboardRun (initDashboard didId vc) scenarioEvents).1.rawMode = false
    ∧ (dashboardRun (initDashboard didId vc) scenarioEvents).1.cursorShown = true := by
  refine ⟨rfl, rfl, rfl, rfl, rfl⟩

/-- The producer thread's tick interval: `Duration::from_millis(200)`. -/
def tickRateMs : Nat := 200

/-- `Duration::checked_sub`: `none` when the subtrahend exceeds the
minuend. -/
def checkedSub (a b : Nat) : Option Nat :=
  if b ≤ a then some (a - b) else none

/-- The poll timeout computed on each producer iteration:
`tick_rate.checked_sub(last_tick.elapsed()).unwrap_or(0)`. -/
def pollTimeoutMs (elapsedMs : Nat) : Nat :=
  (checkedSub tickRateMs elapsedMs).getD 0

/-- One iteration of the producer loop in main.rs, with the input device
and clock made explicit: the milliseconds elapsed since `last_tick` when
the timeout is computed, the event (if any) returned by
`event::poll`/`event::read` within that window, and the elapsed time when
`last_tick.elapsed() >= tick_rate` is checked. -/
structure ProducerIter where
  elapsedAtPoll : Nat
  polled : Option CEvent
  elapsedAtCheck : Nat

/-- Events sent on the channel by one producer iteration, and whether
`last_tick` was reset: a key event read within the poll window is sent as
`Input` first; then, if the tick deadline has passed, `Tick` is sent and
the deadline is reset. -/
def producerStep (it : ProducerIter) : List Event × Bool :=
  ((match it.polled with
    | some (CEvent.key k) => [Event.Input k]
    | _ => []) ++
    (if tickRateMs ≤ it.elapsedAtCheck then [Event.Tick] else []),
   if tickRateMs ≤ it.elapsedAtCheck then true else false)

theorem pollTimeout_clamp (e : Nat) :
    (pollTimeoutMs e : Int) = max ((tickRateMs : Int) - (e : Int)) 0 := by
  unfold pollTimeoutMs checkedSub tickRateMs
  by_cases h : e ≤ 200
  · rw [if_pos h]
    rw [max_eq_left (by omega)]
    simp only [Option.getD_some]
    omega
  · rw [if_neg h]
    rw [max_eq_right (by omega)]
    simp only [Option.getD_none, Nat.cast_zero]

/-- Claim C7: on each producer iteration the poll timeout is the 200 ms
interval minus the elapsed time clamped below at zero; a key event read
within the window is sent as `Input` before anything else of that
iteration; and when the elapsed time has reached the interval a `Tick` is
sent and the deadline is reset (and it is not reset otherwise). -/
theorem C7_producer_iteration (it : ProducerIter) :
    (pollTimeoutMs it.elapsedAtPoll : Int)
      = max ((tickRateMs : Int) - (it.elapsedAtPoll : Int)) 0
    ∧ (∀ k, it.polled = some (CEvent.key k) →
        ((producerStep it).1).head? = some (Event.Input k))
    ∧ (tickRateMs ≤ it.elapsedAtCheck →
        Event.Tick ∈ (producerStep it).1 ∧ (producerStep it).2 = true)
    ∧ (it.elapsedAtCheck < tickRateMs → (producerStep it).2 = false) := by
  refine ⟨pollTimeout_clamp it.elapsedAtPoll, ?_, ?_, ?_⟩
  · intro k hk
    simp [producerStep, hk]
  · intro h
    simp [producerStep, h]
  · intro h
    simp [producerStep, Nat.not_le_of_lt h]

/-- A concrete producer iteration exercising claim C7: 50 ms elapsed at
the poll, the key `x` read within the window, the tick deadline reached at
the check. -/
def producerIterSample : ProducerIter :=
  { elapsedAtPoll := 50
    polled := some (CEvent.key (KeyCode.char 'x'))
    elapsedAtCheck := 200 }

theorem C7_producer_iteration_witness :
    (pollTimeoutMs producerIterSample.elapsedAtPoll : Int)
      = max ((tickRateMs : Int) - (producerIterSample.elapsedAtPoll : Int)) 0
    ∧ ((producerStep producerIterSample).1).head?
        = some (Event.Input (KeyCode.char 'x'))
    ∧ Event.Tick ∈ (producerStep producerIterSample).1
    ∧ (producerStep producerIterSample).2 = true := by
  have h := C7_producer_iteration producerIterSample
  exact ⟨h.1, h.2.1 (KeyCode.char 'x') rfl, (h.2.2.1 (by decide)).1, (h.2.2.1 (by decide)).2⟩

/-- An Ed25519 key pair from the identity library. -/
structure KeyPair where
  publicKey : String
  privateKey : String
deriving DecidableEq

/-- An IOTA DID document: its DID identifier string, the Tangle message id
set after publication, and whether it carries a signature. -/
structure IotaDocument where
  id : String
  messageId : String
  signed : Bool
deriving DecidableEq

/-- A Tangle publish receipt. -/
structure Receipt where
  messageId : String
deriving DecidableEq

/-- Outcomes of the external collaborator calls made inside
`did::create_did`: key generation, document construction, document
signing, and the Tangle publish. -/
structure DidEnv where
  keyGen : Except String KeyPair
  newDocumentOk : Bool
  signOk : Bool
  publishResult : Except String Receipt

/-- `IotaDocument::new(&keypair)`: the DID identifier is derived from the
public key; the document is unsigned and not yet published. -/
def newDocument (kp : KeyPair) : IotaDocument :=
  { id := "did:iota:" ++ kp.publicKey, messageId := "", signed := false }

/-- `did::create_did` from did.rs: generate an Ed25519 key pair, build a
DID document from it, sign the document with the private key, publish it
to the Tangle and record the receipt's message id on the document. -/
def create_did (env : DidEnv) : Except String (IotaDocument × KeyPair × Receipt) :=
  match env.keyGen with
  | Except.error e => Except.error e
  | Except.ok keypair =>
    if env.newDocumentOk then
      if env.signOk then
        match env.publishResult with
        | Except.error e => Except.error e
        | Except.ok receipt =>
          Except.ok ({ newDocument keypair with
                        messageId := receipt.messageId, signed := true },
                     keypair, receipt)
      else Except.error "document signing failed"
    else Except.error "document construction failed"

/-- The credential subject built in issue.rs from the JSON literal:
the subject document's DID plus fixed claims. -/
structure Subject where
  id : String
  name : String
  degreeType : String
  degreeName : String
  gpa : String
deriving DecidableEq

/-- The credential produced by `CredentialBuilder`: id, type list (the
base type plus the added one), issuer URL and subject. -/
structure Credential where
  id : String
  types : List String
  issuer : String
  credentialSubject : Subject
deriving DecidableEq

/-- `Url::parse`: fails on an empty string, otherwise yields the URL. -/
def urlParse (s : String) : Except String String :=
  if s = "" then Except.error "invalid url" else Except.ok s

/-- `issue::issue_degree` from issue.rs: a subject with fixed claims about
the subject document's DID, and a credential with the fixed example id and
type, attributed to the issuer document's DID. -/
def issue_degree (issuer subject : IotaDocument) : Except String Credential :=
  match urlParse "https://example.edu/credentials/3732" with
  | Except.error e => Except.error e
  | Except.ok credId =>
    match urlParse issuer.id with
    | Except.error e => Except.error e
    | Except.ok issuerUrl =>
      Except.ok
        { id := credId
          types := ["VerifiableCredential", "UniversityDegreeCredential"]
          issuer := issuerUrl
          credentialSubject :=
            { id := subject.id
              name := "Alice"
              degreeType := "BachelorDegree"
              degreeName := "Bachelor of Science and Arts"
              gpa := "4.0" } }

/-- `credential.to_string()`: the credential's JSON serialization. -/
def credToString (c : Credential) : String :=
  "\x7b\"id\":\"" ++ c.id ++ "\",\"issuer\":\"" ++ c.issuer ++
    "\",\"credentialSubject\":\x7b\"id\":\"" ++ c.credentialSubject.id ++ "\"\x7d\x7d"

/-- The observable steps of the startup phase of `main` (and, for
comparison with the spec, the signing step the spec claims). -/
inductive StepTag where
  | createIssuerIdentity : StepTag
  | resolveIssuer : StepTag
  | encodeDidQr : StepTag
  | createSubjectIdentity : StepTag
  | buildCredential : StepTag
  | signCredential : StepTag
  | encodeCredentialQr : StepTag
  | enterRawMode : StepTag
deriving DecidableEq

/-- Outcomes of the external collaborator calls made during startup in
main.rs: issuer identity creation via the Stronghold account (account
construction, `create_identity`, `try_did` collapsed into the issuer DID),
`resolve_identity`, the two `QrCode::new(..).unwrap()` calls, and the
collaborators used inside `did::create_did`. -/
structure StartupEnv where
  createIssuer : Except String String
  resolveIssuer : Except String IotaDocument
  didQrOk : Bool
  didEnv : DidEnv
  credQrOk : Bool

/-- What the startup phase hands to the dashboard: the two identity
records, the credential, and the cached display strings `did_id` and
`vc`. -/
structure StartupOutput where
  issuerRecord : IotaDocument
  subjectRecord : IotaDocument
  credential : Credential
  didId : String
  vc : String
deriving DecidableEq

/-- Lines 55-110 of main.rs: create the issuer identity, resolve it,
QR-encode the resolved DID, create the subject identity via
`did::create_did`, build the credential via `issue::issue_degree`, and
QR-encode its serialization — in that source order, stopping at the first
failure (a failed `QrCode::new(..).unwrap()` aborts the process).  Returns
the ordered list of steps reached and the result. -/
def mainStartup (env : StartupEnv) : List StepTag × Except String StartupOutput :=
  match env.createIssuer with
  | Except.error e => ([StepTag.createIssuerIdentity], Except.error e)
  | Except.ok _ =>
    match env.resolveIssuer with
    | Except.error e =>
      ([StepTag.createIssuerIdentity, StepTag.resolveIssuer], Except.error e)
    | Except.ok resolved =>
      if env.didQrOk then
        match create_did env.didEnv with
        | Except.error e =>
          ([StepTag.createIssuerIdentity, StepTag.resolveIssuer, StepTag.encodeDidQr,
            StepTag.createSubjectIdentity], Except.error e)
        | Except.ok (subjectDoc, _, _) =>
          match issue_degree resolved subjectDoc with
          | Except.error e =>
            ([StepTag.createIssuerIdentity, StepTag.resolveIssuer, StepTag.encodeDidQr,
              StepTag.createSubjectIdentity, StepTag.buildCredential], Except.error e)
          | Except.ok credential =>
            if env.credQrOk then
              ([StepTag.createIssuerIdentity, StepTag.resolveIssuer, StepTag.encodeDidQr,
                StepTag.createSubjectIdentity, StepTag.buildCredential,
                StepTag.encodeCredentialQr],
               Except.ok { issuerRecord := resolved
                           subjectRecord := subjectDoc
                           credential := credential
                           didId := resolved.id
                           vc := credToString credential })
            else
              ([StepTag.createIssuerIdentity, StepTag.resolveIssuer, StepTag.encodeDidQr,
                StepTag.createSubjectIdentity, StepTag.buildCredential,
                StepTag.encodeCredentialQr], Except.error "qr encoding failed")
      else
        ([StepTag.createIssuerIdentity, StepTag.resolveIssuer, StepTag.encodeDidQr],
         Except.error "qr encoding failed")

/-- How the whole process ends: startup failed (the error is printed by
the `Result`-returning `main` and the process exits non-zero), or the
dashboard ran and exited some way. -/
inductive MainOutcome where
  | startupFailed : String → MainOutcome
  | ranDashboard : LoopExit → MainOutcome
deriving DecidableEq

/-- The error printed at process exit, if any: `fn main() -> Result`
prints the error it returns. -/
def printedError : MainOutcome → Option String
  | MainOutcome.startupFailed e => some e
  | MainOutcome.ranDashboard _ => none

/-- The process exit status: zero only for a clean quit through the `q`
branch; a startup failure, draw failure or channel failure makes `main`
return an error and the process exit non-zero. -/
def processExitCode : MainOutcome → Nat
  | MainOutcome.startupFailed _ => 1
  | MainOutcome.ranDashboard (LoopExit.quit _) => 0
  | MainOutcome.ranDashboard _ => 1

/-- All of `main`: the startup phase, then — only if every startup step
succeeded — `enable_raw_mode` and the render loop on the cached strings. -/
def runMain (env : StartupEnv) (script : List (Bool × Option Event)) :
    List StepTag × MainOutcome :=
  match mainStartup env with
  | (log, Except.error e) => (log, MainOutcome.startupFailed e)
  | (log, Except.ok out) =>
    (log ++ [StepTag.enterRawMode],
     MainOutcome.ranDashboard (mainLoop (initDashboard out.didId out.vc) script))

/-- Modelled from the spec: the orchestration order claimed in section 4.5
— issuer identity, subject identity, credential build, credential signing,
then the QR encodings. -/
def claimedOrchSteps : List StepTag :=
  [StepTag.createIssuerIdentity, StepTag.createSubjectIdentity,
   StepTag.buildCredential, StepTag.signCredential,
   StepTag.encodeDidQr, StepTag.encodeCredentialQr]

/-- A concrete key pair for sample runs. -/
def keyPairSample : KeyPair := { publicKey := "pk", privateKey := "sk" }

/-- A `DidEnv` where every collaborator call succeeds. -/
def didEnvAllOk : DidEnv :=
  { keyGen := Except.ok keyPairSample
    newDocumentOk := true
    signOk := true
    publishResult := Except.ok { messageId := "m2" } }

/-- The issuer document resolved from the Tangle in the sample run. -/
def resolvedDocSample : IotaDocument :=
  { id := "did:iota:issuer", messageId := "m1", signed := true }

/-- The subject document `create_did` produces in the sample run. -/
def subjectDocSample : IotaDocument :=
  { id := "did:iota:pk", messageId := "m2", signed := true }

/-- A `StartupEnv` where every collaborator call succeeds. -/
def envAllOk : StartupEnv :=
  { createIssuer := Except.ok "did:iota:issuer"
    resolveIssuer := Except.ok resolvedDocSample
    didQrOk := true
    didEnv := didEnvAllOk
    credQrOk := true }

/-- The credential `issue_degree` builds in the sample run. -/
def credMainSample : Credential :=
  { id := "https://example.edu/credentials/3732"
    types := ["VerifiableCredential", "UniversityDegreeCredential"]
    issuer := "did:iota:issuer"
    credentialSubject :=
      { id := "did:iota:pk"
        name := "Alice"
        degreeType := "BachelorDegree"
        degreeName := "Bachelor of Science and Arts"
        gpa := "4.0" } }

/-- The startup output of the all-success sample run. -/
def outAllOk : StartupOutput :=
  { issuerRecord := resolvedDocSample
    subjectRecord := subjectDocSample
    credential := credMainSample
    didId := "did:iota:issuer"
    vc := credToString credMainSample }

/-- A `StartupEnv` whose very first step fails. -/
def envFail : StartupEnv :=
  { envAllOk with createIssuer := Except.error "identity creation failed" }

theorem issue_degree_spec (i s : IotaDocument) (c : Credential)
    (h : issue_degree i s = Except.ok c) :
    c.id = "https://example.edu/credentials/3732"
    ∧ c.types = ["VerifiableCredential", "UniversityDegreeCredential"]
    ∧ c.issuer = i.id
    ∧ c.credentialSubject.id = s.id
    ∧ c.credentialSubject.name = "Alice"
    ∧ c.credentialSubject.degreeType = "BachelorDegree"
    ∧ c.credentialSubject.degreeName = "Bachelor of Science and Arts"
    ∧ c.credentialSubject.gpa = "4.0" := by
  unfold issue_degree urlParse at h
  by_cases hi : i.id = ""
  · simp [hi] at h
  · simp [hi] at h
    subst h
    exact ⟨rfl, rfl, rfl, rfl, rfl, rfl, rfl, rfl⟩

theorem mainStartup_log_no_rawmode (env : StartupEnv) :
    StepTag.enterRawMode ∉ (mainStartup env).1 := by
  rcases h1 : env.createIssuer with e1 | dd
  · simp [mainStartup, h1]
  · rcases h2 : env.resolveIssuer with e2 | resolved
    · simp [mainStartup, h1, h2]
    · by_cases h3 : env.didQrOk
      · rcases h4 : create_did env.didEnv with e4 | sdr
        · simp [mainStartup, h1, h2, h3, h4]
        · obtain ⟨subjectDoc, kp, rc⟩ := sdr
          rcases h5 : issue_degree resolved subjectDoc with e5 | cred
          · simp [mainStartup, h1, h2, h3, h4, h5]
          · by_cases h6 : env.credQrOk <;>
              simp [mainStartup, h1, h2, h3, h4, h5, h6]
      · simp [mainStartup, h1, h2, h3]

theorem mainStartup_ok_spec (env : StartupEnv) (out : StartupOutput)
    (h : (mainStartup env).2 = Except.ok out) :
    (mainStartup env).1
      = [StepTag.createIssuerIdentity, StepTag.resolveIssuer, StepTag.encodeDidQr,
         StepTag.createSubjectIdentity, StepTag.buildCredential, StepTag.encodeCredentialQr]
    ∧ ∃ resolved subjectDoc kp rc,
        env.resolveIssuer = Except.ok resolved
        ∧ create_did env.didEnv = Except.ok (subjectDoc, kp, rc)
        ∧ issue_degree resolved subjectDoc = Except.ok out.credential
        ∧ out.issuerRecord = resolved
        ∧ out.subjectRecord = subjectDoc
        ∧ out.didId = resolved.id
        ∧ out.vc = credToString out.credential := by
  rcases h1 : env.createIssuer with e1 | dd
  · simp [mainStartup, h1] at h
  · rcases h2 : env.resolveIssuer with e2 | resolved
    · simp [mainStartup, h1, h2] at h
    · by_cases h3 : env.didQrOk
      · rcases h4 : create_did env.didEnv with e4 | sdr
        · simp [mainStartup, h1, h2, h3, h4] at h
        · obtain ⟨subjectDoc, kp, rc⟩ := sdr
          rcases h5 : issue_degree resolved subjectDoc with e5 | cred
          · simp [mainStartup, h1, h2, h3, h4, h5] at h
          · by_cases h6 : env.credQrOk
            · simp only [mainStartup, h1, h2, h3, h4, h5, h6, if_true,
                Except.ok.injEq] at h
              subst h
              constructor
              · simp [mainStartup, h1, h2, h3, h4, h5, h6]
              · exact ⟨resolved, subjectDoc, kp, rc, rfl, rfl, h5, rfl, rfl, rfl, rfl⟩
            · simp [mainStartup, h1, h2, h3, h4, h5, h6] at h
      · simp [mainStartup, h1, h2, h3] at h

/-- Claim C3 counterexample: on a run where every collaborator succeeds,
the startup trace contains no credential-signing step at all (the claimed
step (4) never happens), while the claimed order lists one; the issuer-DID
QR encoding also precedes the subject-identity creation. -/
theorem C3_counterexample :
    (mainStartup envAllOk).1
      = [StepTag.createIssuerIdentity, StepTag.resolveIssuer, StepTag.encodeDidQr,
         StepTag.createSubjectIdentity, StepTag.buildCredential, StepTag.encodeCredentialQr]
    ∧ StepTag.signCredential ∉ (mainStartup envAllOk).1
    ∧ StepTag.signCredential ∈ claimedOrchSteps := by
  decide

/-- Claim C3 (amended): on every successful startup the program performs,
in order: create the issuer identity (awaiting ledger publication),
resolve it, encode the issuer DID string into a QR glyph grid, create the
subject identity record the same way, build the unsigned credential about
the subject attributed to the issuer, and encode the credential's
serialized text into a QR glyph grid; the credential is never signed, and
raw mode is entered only after all of these, right before the Dashboard
loop. -/
theorem C3_amended_startup_order (env : StartupEnv) (scr : List (Bool × Option Event))
    (out : StartupOutput) (h : (mainStartup env).2 = Except.ok out) :
    (mainStartup env).1
      = [StepTag.createIssuerIdentity, StepTag.resolveIssuer, StepTag.encodeDidQr,
         StepTag.createSubjectIdentity, StepTag.buildCredential, StepTag.encodeCredentialQr]
    ∧ StepTag.signCredential ∉ (mainStartup env).1
    ∧ (runMain env scr).1 = (mainStartup env).1 ++ [StepTag.enterRawMode] := by
  obtain ⟨hlog, -⟩ := mainStartup_ok_spec env out h
  refine ⟨hlog, by rw [hlog]; decide, ?_⟩
  unfold runMain
  rcases hms : mainStartup env with ⟨log, res⟩
  rw [hms] at h
  simp only at h
  subst h
  simp

/-- Claim C4: if any startup step fails, `main` aborts there: the step
trace never reaches `enable_raw_mode`, the dashboard loop is never run,
the failing step's error is the one printed at exit, and the process exit
status is non-zero. -/
theorem C4_startup_failure_aborts (env : StartupEnv) (scr : List (Bool × Option Event))
    (e : String) (h : (mainStartup env).2 = Except.error e) :
    runMain env scr = ((mainStartup env).1, MainOutcome.startupFailed e)
    ∧ StepTag.enterRawMode ∉ (runMain env scr).1
    ∧ printedError (runMain env scr).2 = some e
    ∧ processExitCode (runMain env scr).2 ≠ 0 := by
  have hno := mainStartup_log_no_rawmode env
  have hrm : runMain env scr = ((mainStartup env).1, MainOutcome.startupFailed e) := by
    unfold runMain
    rcases hms : mainStartup env with ⟨log, res⟩
    rw [hms] at h
    simp only at h
    subst h
    simp
  refine ⟨hrm, ?_, ?_, ?_⟩
  · rw [hrm]; exact hno
  · rw [hrm]; rfl
  · rw [hrm]; simp [processExitCode]

/-- Claim C5: whenever startup's credential construction succeeds, the
credential's issuer equals the id of the issuer record created and
resolved before it, its subject id equals the id of the subject record
created before it, and the two records handed on are exactly the ones the
identity steps produced — building the credential modifies neither. -/
theorem C5_credential_references_created_records (env : StartupEnv) (out : StartupOutput)
    (h : (mainStartup env).2 = Except.ok out) :
    out.credential.issuer = out.issuerRecord.id
    ∧ out.credential.credentialSubject.id = out.subjectRecord.id
    ∧ (∀ d, env.resolveIssuer = Except.ok d → out.issuerRecord = d)
    ∧ (∀ sd kp rc, create_did env.didEnv = Except.ok (sd, kp, rc) →
        out.subjectRecord = sd) := by
  obtain ⟨-, resolved, subjectDoc, kp, rc, hres, hcd, hideg, hir, hsr, -, -⟩ :=
    mainStartup_ok_spec env out h
  obtain ⟨-, -, hIssuer, hSubj, -, -, -, -⟩ :=
    issue_degree_spec resolved subjectDoc out.credential hideg
  refine ⟨?_, ?_, ?_, ?_⟩
  · rw [hir]; exact hIssuer
  · rw [hsr]; exact hSubj
  · intro d hd
    rw [hres] at hd
    injection hd with hd
    rw [hir, hd]
  · intro sd kp2 rc2 hsd
    rw [hcd] at hsd
    injection hsd with hsd
    rw [hsr]
    exact congrArg Prod.fst hsd

/-- Claim C10: the credential built by `issue_degree` always has the fixed
example id, the `UniversityDegreeCredential` type and the fixed subject
claims (name Alice, BachelorDegree named Bachelor of Science and Arts,
GPA 4.0); only the subject id and the issuer URL come from the input
documents, so any two successfully built credentials agree on everything
else. -/
theorem C10_issue_degree_fixed_fields (i1 s1 i2 s2 : IotaDocument) (c1 c2 : Credential)
    (h1 : issue_degree i1 s1 = Except.ok c1) (h2 : issue_degree i2 s2 = Except.ok c2) :
    c1.id = "https://example.edu/credentials/3732"
    ∧ c1.types = ["VerifiableCredential", "UniversityDegreeCredential"]
    ∧ c1.credentialSubject.name = "Alice"
    ∧ c1.credentialSubject.degreeType = "BachelorDegree"
    ∧ c1.credentialSubject.degreeName = "Bachelor of Science and Arts"
    ∧ c1.credentialSubject.gpa = "4.0"
    ∧ c1.credentialSubject.id = s1.id
    ∧ c1.issuer = i1.id
    ∧ c1.id = c2.id
    ∧ c1.types = c2.types
    ∧ c1.credentialSubject.name = c2.credentialSubject.name
    ∧ c1.credentialSubject.degreeType = c2.credentialSubject.degreeType
    ∧ c1.credentialSubject.degreeName = c2.credentialSubject.degreeName
    ∧ c1.credentialSubject.gpa = c2.credentialSubject.gpa := by
  obtain ⟨a1, b1, ci1, di1, e1, f1, g1, k1⟩ := issue_degree_spec i1 s1 c1 h1
  obtain ⟨a2, b2, ci2, di2, e2, f2, g2, k2⟩ := issue_degree_spec i2 s2 c2 h2
  exact ⟨a1, b1, e1, f1, g1, k1, di1, ci1, a1.trans a2.symm, b1.trans b2.symm,
    e1.trans e2.symm, f1.trans f2.symm, g1.trans g2.symm, k1.trans k2.symm⟩

theorem C3_amended_startup_order_witness :
    (mainStartup envAllOk).1
      = [StepTag.createIssuerIdentity, StepTag.resolveIssuer, StepTag.encodeDidQr,
         StepTag.createSubjectIdentity, StepTag.buildCredential, StepTag.encodeCredentialQr]
    ∧ StepTag.signCredential ∉ (mainStartup envAllOk).1
    ∧ (runMain envAllOk []).1 = (mainStartup envAllOk).1 ++ [StepTag.enterRawMode] :=
  C3_amended_startup_order envAllOk [] outAllOk rfl

theorem C4_startup_failure_aborts_witness :
    runMain envFail []
      = ((mainStartup envFail).1, MainOutcome.startupFailed "identity creation failed")
    ∧ processExitCode (runMain envFail []).2 ≠ 0 := by
  have h := C4_startup_failure_aborts envFail [] "identity creation failed" rfl
  exact ⟨h.1, h.2.2.2⟩

theorem C5_credential_references_created_records_witness :
    (mainStartup envAllOk).2 = Except.ok outAllOk
    ∧ outAllOk.credential.issuer = outAllOk.issuerRecord.id
    ∧ outAllOk.credential.credentialSubject.id = outAllOk.subjectRecord.id := by
  have h := C5_credential_references_created_records envAllOk outAllOk rfl
  exact ⟨rfl, h.1, h.2.1⟩

theorem C10_issue_degree_fixed_fields_witness :
    issue_degree resolvedDocSample subjectDocSample = Except.ok credMainSample
    ∧ credMainSample.id = "https://example.edu/credentials/3732"
    ∧ credMainSample.credentialSubject.id = subjectDocSample.id
    ∧ credMainSample.issuer = resolvedDocSample.id := by
  have h := C10_issue_degree_fixed_fields resolvedDocSample subjectDocSample
    resolvedDocSample subjectDocSample credMainSample credMainSample rfl rfl
  exact ⟨rfl, h.1, h.2.2.2.2.2.2.1, h.2.2.2.2.2.2.2.1⟩

/-- The content of one tui panel as built by the `render_*` functions of
main.rs: the block title, the paragraph's lines (each `Spans` flattened to
its text), the `Alignment::Center` flag, the border flag, and whether a
`wrap` transform was requested on the paragraph (none of the renderers
request one, so overlong lines are truncated, not wrapped). -/
structure Panel where
  title : String
  bodyLines : List String
  centered : Bool
  bordered : Bool
  wrapEnabled : Bool
deriving DecidableEq

/-- `render_home` from main.rs. -/
def render_home : Panel :=
  { title := "Home"
    bodyLines := ["", "Welcome", "", "to", "", "SSI @ IOTA", "", "Press q to quit."]
    centered := true
    bordered := true
    wrapEnabled := false }

/-- `render_issue` from main.rs: the raw DID string and the raw credential
serialization as plain centered lines. -/
def render_issue (did credential : String) : Panel :=
  { title := "Issue"
    bodyLines := ["", "Issue", did, credential, "Press q to quit."]
    centered := true
    bordered := true
    wrapEnabled := false }

/-- `render_verify` from main.rs. -/
def render_verify : Panel :=
  { title := "Verify"
    bodyLines := ["", "Verify", "", "", "Press q to quit."]
    centered := true
    bordered := true
    wrapEnabled := false }

/-- Claim C6 counterexample: for the DID `did:iota:aaa` and credential
text `credtext`, the Issue panel contains no `issued by did:iota:aaa`
attribution line, and no wrapping is requested on the paragraph — contrary
to the claimed panel content. -/
theorem C6_counterexample :
    "issued by did:iota:aaa" ∉ (render_issue "did:iota:aaa" "credtext").bodyLines
    ∧ (render_issue "did:iota:aaa" "credtext").wrapEnabled = false := by
  decide

/-- Claim C6 (amended): for every issuer DID string and credential text,
the Issue panel's content is the raw DID string and the raw credential
text as centered lines between a blank line plus an `Issue` heading and a
`Press q to quit.` footer — with no QR glyph grid in the panel, no
`issued by {did}` attribution line, and no wrapping of long text (the QR
glyph grids are printed to stdout during startup instead). -/
theorem C6_amended_issue_panel (did credential : String) :
    (render_issue did credential).title = "Issue"
    ∧ (render_issue did credential).bodyLines
        = ["", "Issue", did, credential, "Press q to quit."]
    ∧ (render_issue did credential).centered = true
    ∧ (render_issue did credential).wrapEnabled = false :=
  ⟨rfl, rfl, rfl, rfl⟩

end IotaDash
